import Mathlib

/-!
Verification of the Taskfile setup action (src/index.ts).

The embedding mirrors the TypeScript source: pure helpers become Lean
functions; every external collaborator (release registry, tool cache,
downloader, extractors, process runner) is injected through an `Env`
record, and the orchestrating `run` function returns an `Effects` trace
recording every observable action (registry queries, cache lookups,
download URLs, extraction and cache-write counts, PATH additions,
outputs, and the terminal failure message, if any).
-/

/-- Constant `TOOL_NAME` from the source. -/
def TOOL_NAME : String := "task"

/-- Constant `REPO_OWNER` from the source. -/
def REPO_OWNER : String := "go-task"

/-- Constant `REPO_NAME` from the source. -/
def REPO_NAME : String := "task"

/-- The `PlatformInfo` interface: tool-vendor OS name, arch name, archive
extension. -/
structure PlatformInfo where
  os : String
  arch : String
  ext : String
deriving Repr, DecidableEq

/-- `getPlatformInfo` from the source: the two `switch` statements, the
platform switch first (its `throw` fires before the arch switch runs).
Host introspection (`os.platform()`, `os.arch()`) is passed in as the two
arguments. -/
def getPlatformInfo (platform arch : String) : Except String PlatformInfo :=
  let osRes : Except String (String × String) :=
    if platform = "linux" then .ok ("linux", "tar.gz")
    else if platform = "darwin" then .ok ("darwin", "tar.gz")
    else if platform = "win32" then .ok ("windows", "zip")
    else if platform = "freebsd" then .ok ("freebsd", "tar.gz")
    else .error ("Unsupported platform: " ++ platform)
  match osRes with
  | .error e => .error e
  | .ok (taskOs, ext) =>
    let archRes : Except String String :=
      if arch = "x64" then .ok "amd64"
      else if arch = "arm64" then .ok "arm64"
      else if arch = "arm" then .ok "arm"
      else if arch = "ia32" then .ok "386"
      else .error ("Unsupported architecture: " ++ arch)
    match archRes with
    | .error e => .error e
    | .ok taskArch => .ok ⟨taskOs, taskArch, ext⟩

/-- The JavaScript `toLowerCase()` call, embedded character-wise. -/
def toLowerCase (s : String) : String :=
  ⟨s.data.map Char.toLower⟩

/-- The regex replacement `s.replace(/^v/, "")`: removes one leading
lowercase "v" character when present, otherwise returns the string
unchanged. -/
def stripLeadingV (s : String) : String :=
  match s with
  | ⟨'v' :: rest⟩ => ⟨rest⟩
  | s => s

/-- `normalizeVersion` from the source. -/
def normalizeVersion (version : String) : String :=
  stripLeadingV version

/-- `getLatestVersion` from the source, as a function of the registry
collaborator result (`octokit.rest.repos.getLatestRelease` for the fixed
project go-task/task yields either a tag name or an error): on success the
tag with one leading "v" stripped, on error a wrapped message. -/
def getLatestVersion (registry : Except String String) : Except String String :=
  match registry with
  | .ok tag => .ok (stripLeadingV tag)
  | .error e => .error ("Failed to fetch latest version: " ++ e)

/-- `getDownloadUrl` from the source. -/
def getDownloadUrl (version : String) (platformInfo : PlatformInfo) : String :=
  "https://github.com/" ++ REPO_OWNER ++ "/" ++ REPO_NAME ++ "/releases/download/v"
    ++ version ++ "/task_" ++ platformInfo.os ++ "_" ++ platformInfo.arch
    ++ "." ++ platformInfo.ext

/-- The collaborators and inputs of one run. `cacheFind` models `tc.find`
(returns "" on a miss, as the toolkit does); the `Except`-valued fields
model the fallible external calls. -/
structure Env where
  versionInput : String
  platform : String
  arch : String
  registry : Except String String
  cacheFind : String → String
  download : String → Except String String
  extractZip : String → Except String String
  extractTar : String → Except String String
  cacheDir : String → String → Except String String
  verify : Except String Unit

/-- Observable effects of one run: how many registry queries happened,
which cache keys were looked up, which URLs were downloaded, how many
extractions and cache writes ran, which paths were added to PATH, which
outputs were set, and the failure message passed to `core.setFailed`
(none on success). -/
structure Effects where
  registryCalls : Nat
  cacheFindKeys : List String
  downloadUrls : List String
  extractCalls : Nat
  cacheWriteCalls : Nat
  addedPaths : List String
  outputs : List (String × String)
  failedMessage : Option String
deriving Repr, DecidableEq

/-- The version-resolution step of `run`: the default
`core.getInput("version") || "latest"`, the case-insensitive "latest"
test, and either the registry query (counted) or `normalizeVersion`.
Returns (number of registry queries, resolution result). -/
def resolveVersion (env : Env) : Nat × Except String String :=
  let versionInput := if env.versionInput = "" then "latest" else env.versionInput
  if toLowerCase versionInput = "latest" then
    (1, getLatestVersion env.registry)
  else
    (0, .ok (normalizeVersion versionInput))

/-- Tail of `run` after a tool path is available: `core.addPath`, then
`verifyInstallation`, then the two `core.setOutput` calls; a verification
failure is caught by the surrounding try/catch, so outputs stay unset. -/
def finishRun (env : Env) (regCalls : Nat) (keys urls : List String)
    (extracts writes : Nat) (version : String) (cacheHit : Bool)
    (toolPath : String) : Effects :=
  match env.verify with
  | .error e =>
    { registryCalls := regCalls, cacheFindKeys := keys, downloadUrls := urls,
      extractCalls := extracts, cacheWriteCalls := writes,
      addedPaths := [toolPath], outputs := [], failedMessage := some e }
  | .ok _ =>
    { registryCalls := regCalls, cacheFindKeys := keys, downloadUrls := urls,
      extractCalls := extracts, cacheWriteCalls := writes,
      addedPaths := [toolPath],
      outputs := [("version", version),
                  ("cache-hit", if cacheHit then "true" else "false")],
      failedMessage := none }

/-- `run` from the source, with `downloadAndExtract` inlined at its one
call site: platform resolution, version resolution, cache lookup
(`tc.find`, hit iff nonempty), on miss download / extract (zip vs tar by
extension) / `tc.cacheDir`, then PATH, verification, outputs. The
try/catch turns the first error into `core.setFailed` of its message. -/
def run (env : Env) : Effects :=
  match getPlatformInfo env.platform env.arch with
  | .error e =>
    { registryCalls := 0, cacheFindKeys := [], downloadUrls := [],
      extractCalls := 0, cacheWriteCalls := 0, addedPaths := [],
      outputs := [], failedMessage := some e }
  | .ok platformInfo =>
    let rv := resolveVersion env
    match rv.2 with
    | .error e =>
      { registryCalls := rv.1, cacheFindKeys := [], downloadUrls := [],
        extractCalls := 0, cacheWriteCalls := 0, addedPaths := [],
        outputs := [], failedMessage := some e }
    | .ok version =>
      let toolPath := env.cacheFind version
      if toolPath ≠ "" then
        finishRun env rv.1 [version] [] 0 0 version true toolPath
      else
        let url := getDownloadUrl version platformInfo
        match env.download url with
        | .error e =>
          { registryCalls := rv.1, cacheFindKeys := [version],
            downloadUrls := [url], extractCalls := 0, cacheWriteCalls := 0,
            addedPaths := [], outputs := [], failedMessage := some e }
        | .ok downloadPath =>
          match (if platformInfo.ext = "zip" then env.extractZip downloadPath
                 else env.extractTar downloadPath) with
          | .error e =>
            { registryCalls := rv.1, cacheFindKeys := [version],
              downloadUrls := [url], extractCalls := 1, cacheWriteCalls := 0,
              addedPaths := [], outputs := [], failedMessage := some e }
          | .ok extractedPath =>
            match env.cacheDir extractedPath version with
            | .error e =>
              { registryCalls := rv.1, cacheFindKeys := [version],
                downloadUrls := [url], extractCalls := 1, cacheWriteCalls := 1,
                addedPaths := [], outputs := [], failedMessage := some e }
            | .ok cachedPath =>
              finishRun env rv.1 [version] [url] 1 1 version false cachedPath

/-- An environment in which every collaborator succeeds: linux/x64 host,
explicit version request, cache miss. Used to instantiate theorems with
hypotheses at concrete inputs. -/
def envOk : Env :=
  { versionInput := "v3.46.4", platform := "linux", arch := "x64",
    registry := .ok "v9.9.9", cacheFind := fun _ => "",
    download := fun _ => .ok "/tmp/download",
    extractZip := fun _ => .ok "/tmp/zip",
    extractTar := fun _ => .ok "/tmp/tar",
    cacheDir := fun _ _ => .ok "/cache/task/3.46.4",
    verify := .ok () }

/-- `envOk` with a "latest" request and a registry answering v3.50.0. -/
def envLatest : Env :=
  { envOk with versionInput := "latest", registry := .ok "v3.50.0" }

/-- `envOk` with a cache that already holds an installation path. -/
def envHit : Env :=
  { envOk with cacheFind := fun _ => "/cache/task/3.46.4" }

/-- `envOk` on an unsupported host platform. -/
def envBadPlatform : Env :=
  { envOk with platform := "aix" }

/-- `envOk` with the pathological explicit version request "v". -/
def envEmptyVersion : Env :=
  { envOk with versionInput := "v" }

/-- `envOk` with an uppercase-V explicit version request. -/
def envUpperV : Env :=
  { envOk with versionInput := "V3.46.4" }

/-- `envOk` with the sentinel spelled "LATEST". -/
def envUpperLatest : Env :=
  { envOk with versionInput := "LATEST" }

/-- All-or-nothing outputs for one run: a trace with a failure message
sets no outputs, and a trace without one sets exactly two outputs — the
resolved version string under "version" and, under "cache-hit", "true"
exactly when the cache already held that version (nonempty `tc.find`
result) and "false" otherwise. -/
def OutputsOk (env : Env) (E : Effects) : Prop :=
  (E.failedMessage ≠ none → E.outputs = []) ∧
  (E.failedMessage = none →
    ∃ v, (resolveVersion env).2 = .ok v ∧
      E.outputs = [("version", v),
        ("cache-hit", if env.cacheFind v = "" then "false" else "true")])

example : (run envOk).outputs = [("version", "3.46.4"), ("cache-hit", "false")] := by decide

example : (run envOk).downloadUrls =
    ["https://github.com/go-task/task/releases/download/v3.46.4/task_linux_amd64.tar.gz"] := by
  decide

/-- A string whose first character is not a lowercase "v" is unchanged by
`stripLeadingV`. -/
theorem stripLeadingV_head_ne (s : String) (h : s.data.head? ≠ some 'v') :
    stripLeadingV s = s := by
  obtain ⟨l⟩ := s
  cases l with
  | nil => rfl
  | cons c rest =>
    have hc : c ≠ 'v' := by simpa using h
    unfold stripLeadingV
    split
    · next r heq =>
      have hd : c = 'v' ∧ rest = r := by
        have := congrArg String.data heq
        simpa using this
      exact absurd hd.1 hc
    · rfl

/-- Prepending "v" and then stripping the leading "v" is the identity. -/
theorem stripLeadingV_cons_v (s : String) : stripLeadingV ("v" ++ s) = s := rfl

/-- With a "latest" request (after the empty-input default, compared
case-insensitively) the resolver queries the registry once and returns
its answer through `getLatestVersion`. -/
theorem resolveVersion_latest (env : Env)
    (hl : toLowerCase (if env.versionInput = "" then "latest" else env.versionInput)
            = "latest") :
    resolveVersion env = (1, getLatestVersion env.registry) := by
  simp only [resolveVersion, hl, if_true]

/-- With a non-"latest" request the resolver makes no registry query and
normalizes the user string. -/
theorem resolveVersion_explicit (env : Env)
    (hl : toLowerCase (if env.versionInput = "" then "latest" else env.versionInput)
            ≠ "latest") :
    resolveVersion env =
      (0, .ok (normalizeVersion
        (if env.versionInput = "" then "latest" else env.versionInput))) := by
  simp only [resolveVersion]
  rw [if_neg hl]

/-- C1: the Artifact Locator is a pure function returning exactly
"https://github.com/go-task/task/releases/download/v" ++ version ++
"/task_" ++ os ++ "_" ++ arch ++ "." ++ ext for every version and
platform tuple, and in particular version "3.46.4" on (linux, amd64,
tar.gz) yields the documented URL. -/
theorem c1_download_url_exact (v osName archName extName : String) :
    getDownloadUrl v ⟨osName, archName, extName⟩ =
      "https://github.com/go-task/task/releases/download/v" ++ v ++ "/task_"
        ++ osName ++ "_" ++ archName ++ "." ++ extName ∧
    getDownloadUrl "3.46.4" ⟨"linux", "amd64", "tar.gz"⟩ =
      "https://github.com/go-task/task/releases/download/v3.46.4/task_linux_amd64.tar.gz" :=
  ⟨rfl, rfl⟩

/-- C3: the OS mapping sends linux to ("linux","tar.gz"), macOS (darwin)
to ("darwin","tar.gz"), Windows (win32) to ("windows","zip"), FreeBSD to
("freebsd","tar.gz"), and any other platform identifier to an error
naming that identifier. -/
theorem c3_os_mapping :
    (∀ arch pi, getPlatformInfo "linux" arch = .ok pi →
      pi.os = "linux" ∧ pi.ext = "tar.gz") ∧
    (∀ arch pi, getPlatformInfo "darwin" arch = .ok pi →
      pi.os = "darwin" ∧ pi.ext = "tar.gz") ∧
    (∀ arch pi, getPlatformInfo "win32" arch = .ok pi →
      pi.os = "windows" ∧ pi.ext = "zip") ∧
    (∀ arch pi, getPlatformInfo "freebsd" arch = .ok pi →
      pi.os = "freebsd" ∧ pi.ext = "tar.gz") ∧
    (∀ platform arch, platform ≠ "linux" → platform ≠ "darwin" →
      platform ≠ "win32" → platform ≠ "freebsd" →
      getPlatformInfo platform arch
        = .error ("Unsupported platform: " ++ platform)) := by
  refine ⟨?_, ?_, ?_, ?_, ?_⟩
  · intro arch pi h
    unfold getPlatformInfo at h
    repeat' split at h
    all_goals simp_all
    all_goals try rw [← h]
    all_goals exact ⟨rfl, rfl⟩
  · intro arch pi h
    unfold getPlatformInfo at h
    repeat' split at h
    all_goals simp_all
    all_goals try rw [← h]
    all_goals exact ⟨rfl, rfl⟩
  · intro arch pi h
    unfold getPlatformInfo at h
    repeat' split at h
    all_goals simp_all
    all_goals try rw [← h]
    all_goals exact ⟨rfl, rfl⟩
  · intro arch pi h
    unfold getPlatformInfo at h
    repeat' split at h
    all_goals simp_all
    all_goals try rw [← h]
    all_goals exact ⟨rfl, rfl⟩
  · intro platform arch h1 h2 h3 h4
    unfold getPlatformInfo
    simp [h1, h2, h3, h4]

/-- C4: on any supported platform, the architecture mapping sends x64 to
"amd64", arm64 to "arm64", arm to "arm", ia32 to "386", and any other
architecture identifier to an error naming that identifier. -/
theorem c4_arch_mapping :
    (∀ platform pi, getPlatformInfo platform "x64" = .ok pi → pi.arch = "amd64") ∧
    (∀ platform pi, getPlatformInfo platform "arm64" = .ok pi → pi.arch = "arm64") ∧
    (∀ platform pi, getPlatformInfo platform "arm" = .ok pi → pi.arch = "arm") ∧
    (∀ platform pi, getPlatformInfo platform "ia32" = .ok pi → pi.arch = "386") ∧
    (∀ platform arch,
      (platform = "linux" ∨ platform = "darwin" ∨ platform = "win32"
        ∨ platform = "freebsd") →
      arch ≠ "x64" → arch ≠ "arm64" → arch ≠ "arm" → arch ≠ "ia32" →
      getPlatformInfo platform arch
        = .error ("Unsupported architecture: " ++ arch)) := by
  refine ⟨?_, ?_, ?_, ?_, ?_⟩
  · intro platform pi h
    unfold getPlatformInfo at h
    repeat' split at h
    all_goals simp_all
    all_goals try rw [← h]
  · intro platform pi h
    unfold getPlatformInfo at h
    repeat' split at h
    all_goals simp_all
    all_goals try rw [← h]
  · intro platform pi h
    unfold getPlatformInfo at h
    repeat' split at h
    all_goals simp_all
    all_goals try rw [← h]
  · intro platform pi h
    unfold getPlatformInfo at h
    repeat' split at h
    all_goals simp_all
    all_goals try rw [← h]
  · intro platform arch hp h1 h2 h3 h4
    unfold getPlatformInfo
    rcases hp with h | h | h | h <;> subst h <;> simp [h1, h2, h3, h4]

/-- C5: normalization of an explicit version strips exactly one leading
"v" when present and is the identity otherwise, hence idempotent on
already-normalized input; both "3.46.4" and "v3.46.4" normalize to
"3.46.4". -/
theorem c5_normalize_strips_one_v (s : String) (h : s.data.head? ≠ some 'v') :
    normalizeVersion s = s ∧ normalizeVersion ("v" ++ s) = s ∧
    normalizeVersion "3.46.4" = "3.46.4" ∧
    normalizeVersion "v3.46.4" = "3.46.4" :=
  ⟨stripLeadingV_head_ne s h, stripLeadingV_cons_v s, rfl, rfl⟩

/-- C5 witness at s = "3.46.4". -/
theorem c5_normalize_strips_one_v_witness :
    normalizeVersion "3.46.4" = "3.46.4" ∧
    normalizeVersion ("v" ++ "3.46.4") = "3.46.4" ∧
    normalizeVersion "3.46.4" = "3.46.4" ∧
    normalizeVersion "v3.46.4" = "3.46.4" :=
  c5_normalize_strips_one_v "3.46.4" (by decide)

/-- C10: the leading-"v" strip is case-sensitive while the "latest"
sentinel match is case-insensitive: an input starting with an uppercase
"V" that is not "latest" case-insensitively is returned unchanged with no
registry query, whereas "LATEST" and "Latest" take the registry branch. -/
theorem c10_case_sensitivity :
    (∀ env : Env, env.versionInput.data.head? = some 'V' →
      toLowerCase env.versionInput ≠ "latest" →
      resolveVersion env = (0, .ok env.versionInput)) ∧
    (∀ env : Env, env.versionInput = "LATEST" →
      resolveVersion env = (1, getLatestVersion env.registry)) ∧
    (∀ env : Env, env.versionInput = "Latest" →
      resolveVersion env = (1, getLatestVersion env.registry)) := by
  refine ⟨?_, ?_, ?_⟩
  · intro env hV hl
    have hne : env.versionInput ≠ "" := by
      intro he
      rw [he] at hV
      simp at hV
    have hdef : (if env.versionInput = "" then "latest" else env.versionInput)
        = env.versionInput := if_neg hne
    rw [resolveVersion_explicit env (by rw [hdef]; exact hl), hdef]
    have : normalizeVersion env.versionInput = env.versionInput :=
      stripLeadingV_head_ne env.versionInput (by rw [hV]; decide)
    rw [this]
  · intro env he
    exact resolveVersion_latest env (by rw [he]; decide)
  · intro env he
    exact resolveVersion_latest env (by rw [he]; decide)

/-- Projection: `finishRun` never changes the registry-call count. -/
@[simp] theorem finishRun_registryCalls (env : Env) (r : Nat) (k u : List String)
    (x w : Nat) (v : String) (c : Bool) (t : String) :
    (finishRun env r k u x w v c t).registryCalls = r := by
  unfold finishRun
  split <;> rfl

/-- Projection: `finishRun` never changes the cache keys looked up. -/
@[simp] theorem finishRun_cacheFindKeys (env : Env) (r : Nat) (k u : List String)
    (x w : Nat) (v : String) (c : Bool) (t : String) :
    (finishRun env r k u x w v c t).cacheFindKeys = k := by
  unfold finishRun
  split <;> rfl

/-- Projection: `finishRun` never changes the download list. -/
@[simp] theorem finishRun_downloadUrls (env : Env) (r : Nat) (k u : List String)
    (x w : Nat) (v : String) (c : Bool) (t : String) :
    (finishRun env r k u x w v c t).downloadUrls = u := by
  unfold finishRun
  split <;> rfl

/-- Projection: `finishRun` never changes the extraction count. -/
@[simp] theorem finishRun_extractCalls (env : Env) (r : Nat) (k u : List String)
    (x w : Nat) (v : String) (c : Bool) (t : String) :
    (finishRun env r k u x w v c t).extractCalls = x := by
  unfold finishRun
  split <;> rfl

/-- Projection: `finishRun` never changes the cache-write count. -/
@[simp] theorem finishRun_cacheWriteCalls (env : Env) (r : Nat) (k u : List String)
    (x w : Nat) (v : String) (c : Bool) (t : String) :
    (finishRun env r k u x w v c t).cacheWriteCalls = w := by
  unfold finishRun
  split <;> rfl

/-- Projection: `finishRun` adds exactly the given tool path to PATH. -/
@[simp] theorem finishRun_addedPaths (env : Env) (r : Nat) (k u : List String)
    (x w : Nat) (v : String) (c : Bool) (t : String) :
    (finishRun env r k u x w v c t).addedPaths = [t] := by
  unfold finishRun
  split <;> rfl

/-- `finishRun` either fails with the verification error and sets no
outputs, or succeeds and sets exactly the version output and the
rendered cache-hit output. -/
theorem finishRun_failedMessage_outputs (env : Env) (r : Nat) (k u : List String)
    (x w : Nat) (v : String) (c : Bool) (t : String) :
    ((finishRun env r k u x w v c t).failedMessage ≠ none →
      (finishRun env r k u x w v c t).outputs = []) ∧
    ((finishRun env r k u x w v c t).failedMessage = none →
      (finishRun env r k u x w v c t).outputs
        = [("version", v), ("cache-hit", if c then "true" else "false")]) := by
  unfold finishRun
  cases env.verify with
  | error e => exact ⟨fun _ => rfl, fun h => nomatch h⟩
  | ok u2 => exact ⟨fun h => absurd rfl h, fun _ => rfl⟩

/-- C2: outputs are all-or-nothing: a failed run sets a failure message
and no outputs, and a successful run sets exactly the two outputs — the
resolved version string under "version" and, under "cache-hit", "true"
exactly when the tool cache already held that version and "false"
otherwise. -/
theorem c2_outputs_all_or_nothing (env : Env) : OutputsOk env (run env) := by
  unfold OutputsOk
  simp only [run]
  repeat' split
  all_goals try exact ⟨fun _ => rfl, fun h => nomatch h⟩
  all_goals refine ⟨(finishRun_failedMessage_outputs env _ _ _ _ _ _ _ _).1,
    fun h => ⟨_, by assumption, ?_⟩⟩
  all_goals rw [(finishRun_failedMessage_outputs env _ _ _ _ _ _ _ _).2 h]
  all_goals simp_all

/-- C3 witness: linux/x64 maps to the documented tuple and an unknown
platform identifier is rejected with a message naming it. -/
theorem c3_os_mapping_witness :
    (PlatformInfo.os ⟨"linux", "amd64", "tar.gz"⟩ = "linux"
      ∧ PlatformInfo.ext ⟨"linux", "amd64", "tar.gz"⟩ = "tar.gz") ∧
    getPlatformInfo "aix" "x64" = .error ("Unsupported platform: " ++ "aix") :=
  ⟨c3_os_mapping.1 "x64" ⟨"linux", "amd64", "tar.gz"⟩ rfl,
   c3_os_mapping.2.2.2.2 "aix" "x64" (by decide) (by decide) (by decide) (by decide)⟩

/-- C4 witness: x64 maps to "amd64" and an unknown architecture
identifier is rejected with a message naming it. -/
theorem c4_arch_mapping_witness :
    PlatformInfo.arch ⟨"linux", "amd64", "tar.gz"⟩ = "amd64" ∧
    getPlatformInfo "linux" "mips" = .error ("Unsupported architecture: " ++ "mips") :=
  ⟨c4_arch_mapping.1 "linux" ⟨"linux", "amd64", "tar.gz"⟩ rfl,
   c4_arch_mapping.2.2.2.2 "linux" "mips" (Or.inl rfl)
     (by decide) (by decide) (by decide) (by decide)⟩

/-- C6: a case-insensitively "latest" request (after the empty-input
default) queries the registry exactly once for the fixed go-task/task
project, strips one leading "v" from the returned tag, and on a registry
error fails with a message wrapping the underlying error with no download
attempted. -/
theorem c6_latest_resolution (env : Env) (pi : PlatformInfo)
    (hp : getPlatformInfo env.platform env.arch = .ok pi)
    (hl : toLowerCase (if env.versionInput = "" then "latest" else env.versionInput)
            = "latest") :
    (run env).registryCalls = 1 ∧
    REPO_OWNER = "go-task" ∧ REPO_NAME = "task" ∧
    (∀ s, env.registry = .ok ("v" ++ s) → (resolveVersion env).2 = .ok s) ∧
    (∀ e, env.registry = .error e →
      (run env).failedMessage = some ("Failed to fetch latest version: " ++ e) ∧
      (run env).downloadUrls = []) := by
  have hrv := resolveVersion_latest env hl
  refine ⟨?_, rfl, rfl, ?_, ?_⟩
  · simp only [run, hp, hrv]
    repeat' split
    all_goals simp
  · intro s hs
    rw [hrv, hs]
    show Except.ok (stripLeadingV ("v" ++ s)) = Except.ok s
    rw [stripLeadingV_cons_v]
  · intro e he
    have hg : getLatestVersion env.registry
        = .error ("Failed to fetch latest version: " ++ e) := by
      unfold getLatestVersion
      rw [he]
    constructor
    · simp [run, hp, hrv, hg]
    · simp [run, hp, hrv, hg]

/-- C6 witness: requesting "latest" makes exactly one registry query. -/
theorem c6_latest_resolution_witness : (run envLatest).registryCalls = 1 :=
  (c6_latest_resolution envLatest ⟨"linux", "amd64", "tar.gz"⟩ rfl (by decide)).1

/-- C7: when the tool cache holds a nonempty path for the resolved
version, the run performs zero downloads, extractions and cache writes,
adds exactly the cached path to PATH, and on success reports
cache-hit=true; the download sequence runs only on a miss. -/
theorem c7_cache_hit_short_circuit (env : Env) (pi : PlatformInfo) (v path : String)
    (hp : getPlatformInfo env.platform env.arch = .ok pi)
    (hv : (resolveVersion env).2 = .ok v)
    (hc : env.cacheFind v = path) (hne : path ≠ "") :
    (run env).downloadUrls = [] ∧ (run env).extractCalls = 0 ∧
    (run env).cacheWriteCalls = 0 ∧ (run env).addedPaths = [path] ∧
    ((run env).failedMessage = none →
      ("cache-hit", "true") ∈ (run env).outputs) := by
  have hrun : run env = finishRun env (resolveVersion env).1 [v] [] 0 0 v true path := by
    simp only [run, hp, hv, hc]
    rw [if_pos hne]
  rw [hrun]
  refine ⟨by simp, by simp, by simp, by simp, ?_⟩
  unfold finishRun
  split
  · intro h
    simp at h
  · intro _
    simp

/-- C7 witness: a concrete cache hit makes no download and no write. -/
theorem c7_cache_hit_short_circuit_witness :
    (run envHit).downloadUrls = [] ∧ (run envHit).extractCalls = 0 ∧
    (run envHit).cacheWriteCalls = 0 ∧ (run envHit).addedPaths = ["/cache/task/3.46.4"] ∧
    ((run envHit).failedMessage = none →
      ("cache-hit", "true") ∈ (run envHit).outputs) :=
  c7_cache_hit_short_circuit envHit ⟨"linux", "amd64", "tar.gz"⟩ "3.46.4"
    "/cache/task/3.46.4" rfl rfl rfl (by decide)

/-- C8: a platform-resolution failure terminates the run before any
registry query, cache lookup, download, extraction, cache write, PATH
change or output: the entire effect trace is empty except for the
failure message. -/
theorem c8_unsupported_platform_no_effects (env : Env) (e : String)
    (hp : getPlatformInfo env.platform env.arch = .error e) :
    run env = { registryCalls := 0, cacheFindKeys := [], downloadUrls := [],
                extractCalls := 0, cacheWriteCalls := 0, addedPaths := [],
                outputs := [], failedMessage := some e } := by
  simp only [run, hp]

/-- C8 witness: an unsupported platform leaves an empty effect trace. -/
theorem c8_unsupported_platform_no_effects_witness :
    run envBadPlatform =
      { registryCalls := 0, cacheFindKeys := [], downloadUrls := [],
        extractCalls := 0, cacheWriteCalls := 0, addedPaths := [],
        outputs := [], failedMessage := some ("Unsupported platform: " ++ "aix") } :=
  c8_unsupported_platform_no_effects envBadPlatform ("Unsupported platform: " ++ "aix") rfl

/-- C9 as amended: the resolved version is the requested string or
registry tag with exactly one leading lowercase "v" stripped when
present — with no further validation, so it can be empty or keep a
leading "v" — and it is used verbatim as the cache key and inside the
download URL. -/
theorem c9_amended_version_used_verbatim (env : Env) (pi : PlatformInfo) (v : String)
    (hp : getPlatformInfo env.platform env.arch = .ok pi)
    (hv : (resolveVersion env).2 = .ok v) :
    (run env).cacheFindKeys = [v] ∧
    ((run env).downloadUrls = [] ∨ (run env).downloadUrls = [getDownloadUrl v pi]) ∧
    (∀ s, normalizeVersion ("v" ++ s) = s) ∧
    (∀ tag, getLatestVersion (.ok tag) = .ok (stripLeadingV tag)) := by
  refine ⟨?_, ?_, fun s => stripLeadingV_cons_v s, fun tag => rfl⟩
  · simp only [run, hp, hv]
    repeat' split
    all_goals simp
  · simp only [run, hp, hv]
    repeat' split
    all_goals simp

/-- C9 witness: the resolved version of a successful explicit request is
the one cache key queried. -/
theorem c9_amended_version_used_verbatim_witness :
    (run envOk).cacheFindKeys = ["3.46.4"] :=
  (c9_amended_version_used_verbatim envOk ⟨"linux", "amd64", "tar.gz"⟩ "3.46.4"
    rfl rfl).1

/-- C9 counterexample: the claimed invariant "non-empty and no leading v"
is false: input "v" resolves to the empty string, which is then used as
the cache key, and input "vv3.46.4" resolves to a string that still
starts with "v". -/
theorem c9_counterexample :
    normalizeVersion "v" = "" ∧
    (run envEmptyVersion).cacheFindKeys = [""] ∧
    (normalizeVersion "vv3.46.4").data.head? = some 'v' := by decide

/-- C10 witness: "V3.46.4" is returned unchanged without a registry
query, while "LATEST" takes the registry branch. -/
theorem c10_case_sensitivity_witness :
    resolveVersion envUpperV = (0, .ok "V3.46.4") ∧
    resolveVersion envUpperLatest = (1, getLatestVersion envUpperLatest.registry) :=
  ⟨c10_case_sensitivity.1 envUpperV (by decide) (by decide),
   c10_case_sensitivity.2.1 envUpperLatest rfl⟩
